import Mathlib

/-
Verification of the outbound-request governor of the MeetingAgent repository
(src/meeting_agent/rate_limiter.py) against its natural-language specification.

The Python module is shallowly embedded: Python floats are modelled as
rationals (`Rat`), Python ints as `Nat`/`Int`, exceptions as explicit error
results, the wall clock as an explicit sequence of timestamps passed in, and
`random.uniform(0, b)` as an explicitly passed sample.  Every definition below
is transcribed from the source file; line numbers in doc comments refer to
rate_limiter.py.
-/

namespace MeetingAgent

/-- Models Python `str.lower()` (the error messages matched by the classifier
are ASCII, for which `Char.toLower` agrees with Python).  Written over the
character list so that it evaluates by kernel reduction. -/
def lowerStr (s : String) : String := String.mk (s.data.map Char.toLower)

/-- Models Python substring membership `needle in hay`. -/
def hasSubstr (hay needle : String) : Bool :=
  hay.toList.tails.any (fun t => needle.toList.isPrefixOf t)

/-- Models `any(term in error_msg for term in terms)` (rate_limiter.py, used at
lines 201-217). -/
def matchesAny (msg : String) (terms : List String) : Bool :=
  terms.any (fun t => hasSubstr msg t)

/-- `RetryConfig` dataclass (rate_limiter.py lines 41-53), with the source's
default field values.  Delays are seconds, modelled as rationals. -/
structure RetryConfig where
  max_retries : Nat := 5
  base_delay : Rat := 1
  max_delay : Rat := 60
  exponential_base : Rat := 2
  jitter : Bool := true
  jitter_max : Rat := 1/10
  rate_limit_delay : Rat := 60
  quota_exceeded_delay : Rat := 3600
deriving DecidableEq

/-- `RateLimiter._add_jitter` (lines 122-128).  The source draws
`random.uniform(0, jitter_max * delay)`; the drawn value is passed in
explicitly as `jitterSample`. -/
def _add_jitter (cfg : RetryConfig) (delay jitterSample : Rat) : Rat :=
  if cfg.jitter = false then delay
  else delay + jitterSample

/-- `RateLimiter._calculate_backoff_delay` (lines 130-145): pick the base for
the error kind, cap the exponential at `max_delay`, then add jitter. -/
def _calculate_backoff_delay (cfg : RetryConfig) (attempt : Nat)
    (error_type : String) (jitterSample : Rat) : Rat :=
  let base_delay :=
    if error_type = "rate_limit" then cfg.rate_limit_delay
    else if error_type = "quota_exceeded" then cfg.quota_exceeded_delay
    else cfg.base_delay
  let delay := min (base_delay * cfg.exponential_base ^ attempt) cfg.max_delay
  _add_jitter cfg delay jitterSample

/-- Rate-limit rule group (line 201). -/
def rateLimitTerms : List String := ["rate limit", "too many requests", "429"]

/-- Quota-exceeded rule group (line 205). -/
def quotaTerms : List String := ["quota exceeded", "insufficient_quota", "billing"]

/-- Server-error rule group (line 209). -/
def serverErrorTerms : List String :=
  ["500", "502", "503", "504", "internal server", "bad gateway", "service unavailable"]

/-- Connection-error rule group (line 213). -/
def connectionTerms : List String := ["connection", "timeout", "network"]

/-- Client-error rule group (line 217). -/
def clientErrorTerms : List String :=
  ["400", "401", "403", "404", "invalid", "unauthorized", "forbidden"]

/-- The message-driven part of `RateLimiter._should_retry` (lines 197-221):
lowercase the message and test the ordered rule groups, first match wins.
(The source also computes `type(error).__name__.lower()` into `error_type`
at line 198 but never reads it, so only the message participates.) -/
def classifyMessage (errMsg : String) : Bool × String :=
  let error_msg := lowerStr errMsg
  if matchesAny error_msg rateLimitTerms then (true, "rate_limit")
  else if matchesAny error_msg quotaTerms then (true, "quota_exceeded")
  else if matchesAny error_msg serverErrorTerms then (true, "server_error")
  else if matchesAny error_msg connectionTerms then (true, "connection_error")
  else if matchesAny error_msg clientErrorTerms then (false, "client_error")
  else (true, "generic")

/-- `RateLimiter._should_retry` (lines 192-221): the retry ceiling is checked
before any message matching. -/
def _should_retry (cfg : RetryConfig) (errMsg : String) (attempt : Nat) :
    Bool × String :=
  if cfg.max_retries ≤ attempt then (false, "max_retries_exceeded")
  else classifyMessage errMsg

/-- `APIProvider` enum (rate_limiter.py lines 17-19). -/
inductive Provider where
  | openai
  | anthropic
deriving DecidableEq

/-- One entry of a `RequestQueue` (the dict built by `_queue_request`, lines
255-260, plus the `queued_at` stamp added by `add_request` at line 70).  The
bound invocation `{func, args, kwargs}` is opaque data to the queue; it is
modelled by an abstract `payload` identifier. -/
structure QueuedRequest where
  provider : Provider
  payload : Nat
  queued_at : Rat := 0
deriving DecidableEq

/-- `RequestQueue` (rate_limiter.py lines 56-89): a bounded FIFO.  The deque
grows at the right and pops at the left, so it is modelled as a list whose
head is the oldest entry.  The `threading.Lock` only serializes access and
has no sequential semantics. -/
structure RequestQueue where
  queue : List QueuedRequest := []
  max_size : Nat := 1000
deriving DecidableEq

/-- `RequestQueue.add_request` (lines 64-72): returns `false` and leaves the
queue untouched when `len(queue) >= max_size`; otherwise stamps `queued_at`
and appends. -/
def RequestQueue.add_request (q : RequestQueue) (r : QueuedRequest) (now : Rat) :
    Bool × RequestQueue :=
  if q.max_size ≤ q.queue.length then (false, q)
  else (true, { q with queue := q.queue ++ [{ r with queued_at := now }] })

/-- `RequestQueue.get_next_request` (lines 74-79): pop the oldest entry,
`none` when empty. -/
def RequestQueue.get_next_request (q : RequestQueue) :
    Option QueuedRequest × RequestQueue :=
  match q.queue with
  | [] => (none, q)
  | r :: rest => (some r, { q with queue := rest })

/-- `RequestQueue.size` (lines 81-84). -/
def RequestQueue.size (q : RequestQueue) : Nat := q.queue.length

/-- `RequestQueue.clear` (lines 86-89). -/
def RequestQueue.clear (q : RequestQueue) : RequestQueue := { q with queue := [] }

/-- `RateLimitInfo` dataclass (rate_limiter.py lines 29-38); every field
defaults to unknown. -/
structure RateLimitInfo where
  limit_requests : Option Int := none
  limit_tokens : Option Int := none
  remaining_requests : Option Int := none
  remaining_tokens : Option Int := none
  reset_requests : Option Rat := none
  reset_tokens : Option Rat := none
  retry_after : Option Rat := none
deriving DecidableEq

/-- A non-empty all-digit run read as a natural number, `none` otherwise.
Building block for the models of Python `int(...)` and `float(...)`. -/
def parseNatDigits (cs : List Char) : Option Nat :=
  if cs = [] then none
  else if cs.all Char.isDigit then
    some (cs.foldl (fun a c => 10 * a + (c.toNat - 48)) 0)
  else none

/-- Models Python `int(...)` on a header string: optionally signed decimal
digits parse, anything else raises — here, `none`. -/
def parseIntStr (s : String) : Option Int :=
  match s.data with
  | '-' :: rest => (parseNatDigits rest).map (fun n => -(n : Int))
  | '+' :: rest => (parseNatDigits rest).map (fun n => (n : Int))
  | l => (parseNatDigits l).map (fun n => (n : Int))

/-- `RateLimiter._safe_int` (lines 174-181): `int(value)` with
`ValueError`/`TypeError` swallowed to `None`; absent values stay `None`. -/
def _safe_int (value : Option String) : Option Int :=
  match value with
  | none => none
  | some s => parseIntStr s

/-- Models Python `float(...)` on a header string: an optionally signed digit
run, optionally followed by `"."` and another digit run (the forms rate-limit
headers carry).  Returns `none` where `float(...)` raises `ValueError`. -/
def parseDecimal (s : String) : Option Rat :=
  let neg : Bool :=
    match s.data with
    | c :: _ => c = '-'
    | [] => false
  let body :=
    match s.data with
    | '-' :: rest => rest
    | '+' :: rest => rest
    | l => l
  let intChars := body.takeWhile (fun c => c != '.')
  let rest := body.dropWhile (fun c => c != '.')
  match parseNatDigits intChars with
  | none => none
  | some ip =>
    match rest with
    | [] => some (if neg then -(ip : Rat) else (ip : Rat))
    | _ :: frac =>
      match parseNatDigits frac with
      | none => none
      | some fp =>
        let mag : Rat := (ip : Rat) + (fp : Rat) / (10 : Rat) ^ frac.length
        some (if neg then -mag else mag)

/-- `RateLimiter._safe_float` (lines 183-190): `float(value)` with failures
swallowed to `None`. -/
def _safe_float (value : Option String) : Option Rat :=
  match value with
  | none => none
  | some s => parseDecimal s

/-- A response object as the governor sees it: possibly carrying a `headers`
mapping, plus an opaque body distinguishing responses.  `headers := none`
models an object with no `headers` attribute (or `headers=None`). -/
structure Response where
  headers : Option (List (String × String)) := none
  body : String := ""
deriving DecidableEq

/-- `getattr(response, 'headers', {}) or {}` (lines 149 and 162). -/
def responseHeaders (r : Response) : List (String × String) :=
  r.headers.getD []

/-- `RateLimiter._parse_openai_rate_limit_headers` (lines 147-158);
`headers.get(key)` is first-match lookup, absent keys give `None`. -/
def _parse_openai_rate_limit_headers (r : Response) : RateLimitInfo :=
  let headers := responseHeaders r
  { limit_requests := _safe_int (headers.lookup "x-ratelimit-limit-requests"),
    limit_tokens := _safe_int (headers.lookup "x-ratelimit-limit-tokens"),
    remaining_requests := _safe_int (headers.lookup "x-ratelimit-remaining-requests"),
    remaining_tokens := _safe_int (headers.lookup "x-ratelimit-remaining-tokens"),
    reset_requests := _safe_float (headers.lookup "x-ratelimit-reset-requests"),
    reset_tokens := _safe_float (headers.lookup "x-ratelimit-reset-tokens") }

/-- `RateLimiter._parse_anthropic_rate_limit_headers` (lines 160-172). -/
def _parse_anthropic_rate_limit_headers (r : Response) : RateLimitInfo :=
  let headers := responseHeaders r
  { limit_requests := _safe_int (headers.lookup "anthropic-ratelimit-requests-limit"),
    limit_tokens := _safe_int (headers.lookup "anthropic-ratelimit-tokens-limit"),
    remaining_requests := _safe_int (headers.lookup "anthropic-ratelimit-requests-remaining"),
    remaining_tokens := _safe_int (headers.lookup "anthropic-ratelimit-tokens-remaining"),
    reset_requests := _safe_float (headers.lookup "anthropic-ratelimit-requests-reset"),
    reset_tokens := _safe_float (headers.lookup "anthropic-ratelimit-tokens-reset"),
    retry_after := _safe_float (headers.lookup "retry-after") }

/-- The per-provider slice of a `RateLimiter`'s mutable state (lines 95-118):
`backoff_until[p]`, `rate_limits[p]`, `request_history[p]` and
`request_queues[p]` for the one provider `p` an `execute_with_retry` call
works on (the call never touches another provider's entries). -/
structure GovState where
  backoff_until : Rat := 0
  rate_limits : RateLimitInfo := {}
  request_history : List Rat := []
  request_queue : RequestQueue := {}
deriving DecidableEq

/-- `RateLimiter._update_rate_limit_info` (lines 231-251): parse the
provider-specific headers and replace the whole snapshot.  The source wraps
the body in `try/except` which logs and swallows any error; in the model
parsing is total, and in the source the snapshot assignment (line 239)
precedes the only statements that can raise (the usage-percentage logging),
so the assignment always takes effect. -/
def _update_rate_limit_info (provider : Provider) (st : GovState) (r : Response) :
    GovState :=
  let rate_info :=
    match provider with
    | .openai => _parse_openai_rate_limit_headers r
    | .anthropic => _parse_anthropic_rate_limit_headers r
  { st with rate_limits := rate_info }

/-- Lines 286-292 of the attempt loop: append the attempt timestamp to the
history and drop entries older than 60 seconds from the front. -/
def recordAttempt (st : GovState) (now : Rat) : GovState :=
  { st with request_history :=
      (st.request_history ++ [now]).dropWhile (fun ts => ts < now - 60) }

/-- `RateLimiter._queue_request` (lines 253-268): build the request record and
offer it to the provider's queue; the success flag is only logged. -/
def _queue_request (provider : Provider) (payload : Nat) (st : GovState)
    (now : Rat) : GovState :=
  let offered := st.request_queue.add_request { provider := provider, payload := payload } now
  { st with request_queue := offered.2 }

/-- One behaviour of the wrapped invocation `request_func(*args, **kwargs)`:
return a response or raise an error with the given message. -/
inductive Outcome where
  | success (resp : Response)
  | failure (errMsg : String)
deriving DecidableEq

/-- Result of a governed call: the returned response or the raised error's
message. -/
inductive ExecResult where
  | ok (resp : Response)
  | err (msg : String)
deriving DecidableEq

/-- Observable outcome of one `execute_with_retry`/`execute_with_retry_sync`
call: the result, the final per-provider state, how many times the wrapped
invocation ran, and how many times `_queue_request` was attempted. -/
structure ExecTrace where
  result : ExecResult
  state : GovState
  invocations : Nat
  enqueueAttempts : Nat
deriving DecidableEq

/-- The attempt loop of `RateLimiter.execute_with_retry` (rate_limiter.py
lines 282-335), the suspension-based entry point.  `outcomes k` is what the
wrapped invocation does on its `k`-th call, `jitters k` the jitter sample
drawn for attempt `k`, `times k` the wall-clock reading during attempt `k`
(the calls to `time.time()` within one iteration are coalesced; only the
history pruning cutoff depends on it).  `remaining` counts the iterations the
`for attempt in range(max_retries + 1)` loop still has; the `remaining = 0`
case is the `raise last_error` fall-through after the loop (line 335), with
`Option.getD` standing for the (unreachable) `last_error = None` case.
`await asyncio.sleep(delay)` (line 331) suspends without touching state. -/
def executeFromAsync (cfg : RetryConfig) (provider : Provider) (payload : Nat)
    (outcomes : Nat → Outcome) (jitters : Nat → Rat) (times : Nat → Rat) :
    Nat → Nat → Option String → GovState → Nat → Nat → ExecTrace
  | 0, _, last_error, st, inv, enq =>
    { result := .err (last_error.getD ""), state := st,
      invocations := inv, enqueueAttempts := enq }
  | remaining + 1, attempt, _, st, inv, enq =>
    let st1 := recordAttempt st (times attempt)
    match outcomes attempt with
    | .success resp =>
      let st2 := _update_rate_limit_info provider st1 resp
      { result := .ok resp, state := { st2 with backoff_until := 0 },
        invocations := inv + 1, enqueueAttempts := enq }
    | .failure msg =>
      let c := _should_retry cfg msg attempt
      if c.1 = false then
        { result := .err msg, state := st1,
          invocations := inv + 1, enqueueAttempts := enq }
      else
        let delay := _calculate_backoff_delay cfg attempt c.2 (jitters attempt)
        let st2 := { st1 with backoff_until := times attempt + delay }
        let next :=
          if c.2 = "quota_exceeded" then
            (_queue_request provider payload st2 (times attempt), enq + 1)
          else (st2, enq)
        executeFromAsync cfg provider payload outcomes jitters times
          remaining (attempt + 1) (some msg) next.1 (inv + 1) next.2

/-- `RateLimiter.execute_with_retry` (lines 270-335).  The initial
`_wait_for_backoff` (line 280) only sleeps — it reads `backoff_until` and
blocks until then, mutating nothing — so the model starts the loop directly
at attempt 0. -/
def execute_with_retry (cfg : RetryConfig) (provider : Provider) (payload : Nat)
    (outcomes : Nat → Outcome) (jitters : Nat → Rat) (times : Nat → Rat)
    (st : GovState) : ExecTrace :=
  executeFromAsync cfg provider payload outcomes jitters times
    (cfg.max_retries + 1) 0 none st 0 0

/-- The attempt loop of `RateLimiter.execute_with_retry_sync`
(rate_limiter.py lines 349-402), the blocking entry point; transcribed from
its own source text, which differs from the suspension-based loop only in
using `time.sleep(delay)` (line 398) for the inter-attempt wait. -/
def executeFromSync (cfg : RetryConfig) (provider : Provider) (payload : Nat)
    (outcomes : Nat → Outcome) (jitters : Nat → Rat) (times : Nat → Rat) :
    Nat → Nat → Option String → GovState → Nat → Nat → ExecTrace
  | 0, _, last_error, st, inv, enq =>
    { result := .err (last_error.getD ""), state := st,
      invocations := inv, enqueueAttempts := enq }
  | remaining + 1, attempt, _, st, inv, enq =>
    let st1 := recordAttempt st (times attempt)
    match outcomes attempt with
    | .success resp =>
      let st2 := _update_rate_limit_info provider st1 resp
      { result := .ok resp, state := { st2 with backoff_until := 0 },
        invocations := inv + 1, enqueueAttempts := enq }
    | .failure msg =>
      let c := _should_retry cfg msg attempt
      if c.1 = false then
        { result := .err msg, state := st1,
          invocations := inv + 1, enqueueAttempts := enq }
      else
        let delay := _calculate_backoff_delay cfg attempt c.2 (jitters attempt)
        let st2 := { st1 with backoff_until := times attempt + delay }
        let next :=
          if c.2 = "quota_exceeded" then
            (_queue_request provider payload st2 (times attempt), enq + 1)
          else (st2, enq)
        executeFromSync cfg provider payload outcomes jitters times
          remaining (attempt + 1) (some msg) next.1 (inv + 1) next.2

/-- `RateLimiter.execute_with_retry_sync` (lines 337-402). -/
def execute_with_retry_sync (cfg : RetryConfig) (provider : Provider)
    (payload : Nat) (outcomes : Nat → Outcome) (jitters : Nat → Rat)
    (times : Nat → Rat) (st : GovState) : ExecTrace :=
  executeFromSync cfg provider payload outcomes jitters times
    (cfg.max_retries + 1) 0 none st 0 0

/-- The `while processed < max_requests and queue.size() > 0` loop of
`RateLimiter.process_queued_requests` (rate_limiter.py lines 434-454).
`sweepOutcomes k` is the behaviour of the `k`-th re-invoked queued request
(`none` = it returned, `some msg` = it raised `msg`); `pops` counts pops so
far.  The source loop has no bound of its own — a retryably-failing item is
re-enqueued and can be popped again — so the model carries explicit `fuel`,
one unit per iteration, and answers `none` when the loop has not finished
within `fuel` iterations.  Returns `(processed, pops, queue)`; the 0.1s sleep
after a success (line 447) has no state effect. -/
def processLoop (cfg : RetryConfig) (sweepOutcomes : Nat → Option String)
    (now : Rat) (max_requests : Nat) :
    Nat → Nat → Nat → RequestQueue → Option (Nat × Nat × RequestQueue)
  | 0, _, _, _ => none
  | fuel + 1, processed, pops, q =>
    if processed < max_requests ∧ 0 < q.size then
      match q.get_next_request with
      | (none, q1) => some (processed, pops, q1)
      | (some request_data, q1) =>
        match sweepOutcomes pops with
        | none =>
          processLoop cfg sweepOutcomes now max_requests fuel
            (processed + 1) (pops + 1) q1
        | some errMsg =>
          let c := _should_retry cfg errMsg 0
          let q2 := if c.1 then (q1.add_request request_data now).2 else q1
          processLoop cfg sweepOutcomes now max_requests fuel
            processed (pops + 1) q2
    else some (processed, pops, q)

/-- `RateLimiter.process_queued_requests` (rate_limiter.py lines 425-456):
returns 0 immediately while `backoff_until > now`, otherwise runs the sweep
loop.  Result `(processed, pops, state)`; `none` only when the given fuel is
too small for the loop to have terminated. -/
def process_queued_requests (cfg : RetryConfig) (st : GovState) (now : Rat)
    (sweepOutcomes : Nat → Option String) (max_requests : Nat) (fuel : Nat) :
    Option (Nat × Nat × GovState) :=
  if now < st.backoff_until then some (0, 0, st)
  else
    (processLoop cfg sweepOutcomes now max_requests fuel 0 0 st.request_queue).map
      (fun r => (r.1, r.2.1, { st with request_queue := r.2.2 }))

/-! Concrete configurations used by witnesses and counterexamples. -/

/-- The source's default `RetryConfig()`. -/
def cfgDefault : RetryConfig := {}

/-- The default configuration with jitter disabled (every field constraint of
the spec's data model holds: `max_retries = 5 ≥ 0`, `base_delay = 1 > 0`,
`max_delay = 60 ≥ 1`, `exponential_base = 2 > 1`, `jitter_fraction ∈ [0,1]`). -/
def cfgDefaultNoJitter : RetryConfig := { jitter := false }

/-- A small deterministic policy: `max_retries = 2`, jitter disabled. -/
def cfgSmall : RetryConfig := { max_retries := 2, jitter := false }

/-- A policy with `max_retries = 0`: the first attempt is already the final
attempt. -/
def cfgZeroRetries : RetryConfig := { max_retries := 0, jitter := false }

/-- C1 counterexample: at the default field values with jitter disabled,
`backoff_delay(0, "quota_exceeded")` is `min(3600 * 2^0, 60) = 60`, not the
`quota_exceeded_delay = 3600` the claim promises — `max_delay` caps the
specialized delay. -/
theorem C1_counterexample :
    cfgDefaultNoJitter.quota_exceeded_delay = 3600 ∧
    cfgDefaultNoJitter.max_delay = 60 ∧
    _calculate_backoff_delay cfgDefaultNoJitter 0 "quota_exceeded" 0 = 60 ∧
    (60 : Rat) ≠ 3600 := by
  refine ⟨rfl, rfl, ?_, by norm_num⟩
  simp [cfgDefaultNoJitter, _calculate_backoff_delay, _add_jitter]
  norm_num

/-- C1 (amended): with jitter disabled, the first-attempt specialized delays
are the specialized base delays capped at `max_delay`:
`backoff_delay(0, "rate_limit") = min(rate_limit_delay, max_delay)` and
`backoff_delay(0, "quota_exceeded") = min(quota_exceeded_delay, max_delay)`,
for every policy.  The specialized delay is returned unchanged exactly when
it does not exceed `max_delay` — true at the defaults for `rate_limit_delay`
(60 ≤ 60) but not for `quota_exceeded_delay` (3600 > 60). -/
theorem C1_first_attempt_specialized_capped (cfg : RetryConfig) (j : Rat)
    (h : cfg.jitter = false) :
    _calculate_backoff_delay cfg 0 "rate_limit" j
      = min cfg.rate_limit_delay cfg.max_delay ∧
    _calculate_backoff_delay cfg 0 "quota_exceeded" j
      = min cfg.quota_exceeded_delay cfg.max_delay := by
  constructor <;> simp [_calculate_backoff_delay, _add_jitter, h]

/-- C1 witness: the amended statement applied to the default-valued policy
with jitter disabled. -/
theorem C1_first_attempt_specialized_capped_witness :
    cfgDefaultNoJitter.jitter = false ∧
    _calculate_backoff_delay cfgDefaultNoJitter 0 "rate_limit" 0
      = min cfgDefaultNoJitter.rate_limit_delay cfgDefaultNoJitter.max_delay :=
  ⟨rfl, (C1_first_attempt_specialized_capped cfgDefaultNoJitter 0 rfl).1⟩

/-- C5: the classifier's concrete verdicts — `"Rate limit exceeded"` is
retryable `rate_limit`, `"Invalid request 400"` is non-retryable
`client_error`, `"weird unknown"` falls through to retryable `generic`; any
message at `attempt ≥ max_retries` is `(false, "max_retries_exceeded")`; and
a message matching the rate-limit rule group is decided by it regardless of
what else it contains, the rule groups being tested in the fixed order
rate_limit, quota_exceeded, server_error, connection_error, client_error,
generic (case-insensitive substring matching). -/
theorem C5_classification_cases (cfg : RetryConfig) (h : 0 < cfg.max_retries) :
    _should_retry cfg "Rate limit exceeded" 0 = (true, "rate_limit") ∧
    _should_retry cfg "Invalid request 400" 0 = (false, "client_error") ∧
    _should_retry cfg "weird unknown" 0 = (true, "generic") ∧
    (∀ msg attempt, cfg.max_retries ≤ attempt →
      _should_retry cfg msg attempt = (false, "max_retries_exceeded")) ∧
    (∀ msg attempt, attempt < cfg.max_retries →
      matchesAny (lowerStr msg) rateLimitTerms = true →
      _should_retry cfg msg attempt = (true, "rate_limit")) := by
  refine ⟨?_, ?_, ?_, ?_, ?_⟩
  · rw [_should_retry, if_neg (by omega)]; decide
  · rw [_should_retry, if_neg (by omega)]; decide
  · rw [_should_retry, if_neg (by omega)]; decide
  · intro msg attempt hle
    rw [_should_retry, if_pos hle]
  · intro msg attempt hlt hmatch
    rw [_should_retry, if_neg (by omega)]
    simp [classifyMessage, hmatch]

/-- C5 witness: the classification cases at the default policy
(`max_retries = 5`), including a forced `max_retries_exceeded` verdict at
attempt 9. -/
theorem C5_classification_cases_witness :
    0 < cfgDefault.max_retries ∧
    _should_retry cfgDefault "Rate limit exceeded" 0 = (true, "rate_limit") ∧
    _should_retry cfgDefault "weird unknown" 9 = (false, "max_retries_exceeded") :=
  ⟨by decide, (C5_classification_cases cfgDefault (by decide)).1,
    (C5_classification_cases cfgDefault (by decide)).2.2.2.1 "weird unknown" 9
      (by decide)⟩

/-- C6: with jitter disabled, the generic backoff delay is exactly
`min(base_delay * exponential_base^n, max_delay)` for every attempt `n` and
every policy. -/
theorem C6_generic_exponential (cfg : RetryConfig) (n : Nat) (j : Rat)
    (h : cfg.jitter = false) :
    _calculate_backoff_delay cfg n "generic" j
      = min (cfg.base_delay * cfg.exponential_base ^ n) cfg.max_delay := by
  simp [_calculate_backoff_delay, _add_jitter, h]

/-- C6 witness: the exponential formula applied to the default-valued policy
with jitter disabled at attempt 3. -/
theorem C6_generic_exponential_witness :
    cfgDefaultNoJitter.jitter = false ∧
    _calculate_backoff_delay cfgDefaultNoJitter 3 "generic" 0
      = min (cfgDefaultNoJitter.base_delay * cfgDefaultNoJitter.exponential_base ^ 3)
          cfgDefaultNoJitter.max_delay :=
  ⟨rfl, C6_generic_exponential cfgDefaultNoJitter 3 0 rfl⟩

/-- C8: a queue at capacity rejects `add_request` with `false` and is left
unchanged; an empty queue yields `none` from `get_next_request`; below
capacity `add_request` appends at the tail (returning `true`) and
`get_next_request` pops the head — FIFO order.  (All queue operations in the
model are total functions: they cannot raise, and the source's lock never
blocks beyond mutual exclusion.) -/
theorem C8_queue_fifo_bounded (q : RequestQueue) (r : QueuedRequest) (now : Rat) :
    (q.size = q.max_size → q.add_request r now = (false, q)) ∧
    (q.queue = [] → q.get_next_request = (none, q)) ∧
    (q.size < q.max_size →
      q.add_request r now
        = (true, { q with queue := q.queue ++ [{ r with queued_at := now }] })) ∧
    (∀ x rest, q.queue = x :: rest →
      q.get_next_request = (some x, { q with queue := rest })) := by
  obtain ⟨l, M⟩ := q
  refine ⟨?_, ?_, ?_, ?_⟩
  · intro h
    rw [RequestQueue.size] at h
    rw [RequestQueue.add_request, if_pos (le_of_eq h.symm)]
  · intro h
    subst h
    rfl
  · intro h
    rw [RequestQueue.size] at h
    rw [RequestQueue.add_request, if_neg (Nat.not_le.mpr h)]
  · intro x rest h
    subst h
    rfl

/-- A queued request used by concrete runs. -/
def rqA : QueuedRequest := { provider := .openai, payload := 1 }

/-- Another queued request used by concrete runs. -/
def rqB : QueuedRequest := { provider := .openai, payload := 2 }

/-- A queue at its capacity of 1. -/
def qOneFull : RequestQueue := { queue := [rqA], max_size := 1 }

/-- The empty queue. -/
def qEmpty : RequestQueue := {}

/-- A queue holding two entries, below its capacity of 3. -/
def qTwo : RequestQueue := { queue := [rqA, rqB], max_size := 3 }

/-- C8 witness: a queue at capacity 1 rejects a second entry unchanged; the
empty queue dequeues `none`; a queue below capacity appends and pops FIFO. -/
theorem C8_queue_fifo_bounded_witness :
    (qOneFull.size = qOneFull.max_size ∧
      qOneFull.add_request rqB 5 = (false, qOneFull)) ∧
    (qEmpty.queue = [] ∧ qEmpty.get_next_request = (none, qEmpty)) ∧
    (qTwo.size < qTwo.max_size ∧
      qTwo.add_request rqB 5
        = (true, { qTwo with queue := qTwo.queue ++ [{ rqB with queued_at := 5 }] })) ∧
    (qTwo.queue = rqA :: [rqB] ∧
      qTwo.get_next_request = (some rqA, { qTwo with queue := [rqB] })) :=
  ⟨⟨rfl, (C8_queue_fifo_bounded qOneFull rqB 5).1 rfl⟩,
   ⟨rfl, (C8_queue_fifo_bounded qEmpty rqB 5).2.1 rfl⟩,
   ⟨by decide, (C8_queue_fifo_bounded qTwo rqB 5).2.2.1 (by decide)⟩,
   ⟨rfl, (C8_queue_fifo_bounded qTwo rqB 5).2.2.2 rqA [rqB] rfl⟩⟩

/-- The two transcribed attempt loops compute identically from any point on:
the async loop's `await asyncio.sleep` and the sync loop's `time.sleep` are
both state-free waits. -/
theorem executeFrom_async_eq_sync (cfg : RetryConfig) (provider : Provider)
    (payload : Nat) (outcomes : Nat → Outcome) (jitters : Nat → Rat)
    (times : Nat → Rat) :
    ∀ remaining attempt last_error st inv enq,
      executeFromAsync cfg provider payload outcomes jitters times
          remaining attempt last_error st inv enq
        = executeFromSync cfg provider payload outcomes jitters times
            remaining attempt last_error st inv enq := by
  intro remaining
  induction remaining with
  | zero => intro attempt last_error st inv enq; rfl
  | succ r ih =>
    intro attempt last_error st inv enq
    rw [executeFromAsync, executeFromSync]
    cases houtcome : outcomes attempt with
    | success resp => rfl
    | failure msg =>
      by_cases hc : (_should_retry cfg msg attempt).1 = false
      · simp [hc]
      · simp [hc, ih]

/-- If the invocation fails on every call and every failure message is
retryable-classified, the sync attempt loop started anywhere inside the
attempt range finishes with the final attempt's error and uses all remaining
iterations. -/
theorem executeFromSync_all_retryable (cfg : RetryConfig) (provider : Provider)
    (payload : Nat) (outcomes : Nat → Outcome) (jitters : Nat → Rat)
    (times : Nat → Rat) (m : Nat → String)
    (hout : ∀ k, outcomes k = Outcome.failure (m k))
    (hretry : ∀ k, (classifyMessage (m k)).1 = true) :
    ∀ remaining attempt last_error st inv enq,
      attempt + remaining = cfg.max_retries + 1 → 0 < remaining →
      (executeFromSync cfg provider payload outcomes jitters times
          remaining attempt last_error st inv enq).result
          = ExecResult.err (m cfg.max_retries) ∧
      (executeFromSync cfg provider payload outcomes jitters times
          remaining attempt last_error st inv enq).invocations = inv + remaining := by
  intro remaining
  induction remaining with
  | zero => intro attempt last_error st inv enq hsum hpos; omega
  | succ r ih =>
    intro attempt last_error st inv enq hsum hpos
    by_cases hfin : cfg.max_retries ≤ attempt
    · have hattempt : attempt = cfg.max_retries := by omega
      have hr : r = 0 := by omega
      subst hattempt hr
      have hc : _should_retry cfg (m cfg.max_retries) cfg.max_retries
          = (false, "max_retries_exceeded") := by
        rw [_should_retry, if_pos hfin]
      simp [executeFromSync, hout cfg.max_retries, hc]
    · have hc1 : (_should_retry cfg (m attempt) attempt).1 = true := by
        rw [_should_retry, if_neg hfin]; exact hretry attempt
      have hrpos : 0 < r := by omega
      have hrec := fun st1 enq1 => ih (attempt + 1) (some (m attempt)) st1 (inv + 1) enq1
        (by omega) hrpos
      constructor
      · simp only [executeFromSync, hout attempt, hc1, Bool.true_eq_false, if_false]
        exact (hrec _ _).1
      · simp only [executeFromSync, hout attempt, hc1, Bool.true_eq_false, if_false]
        rw [(hrec _ _).2]
        omega

/-- If every invocation failure is classified `quota_exceeded`, the sync
attempt loop performs one enqueue attempt per iteration except the last
(where the classification is forced to `max_retries_exceeded` and the error
is raised before the queuing code is reached). -/
theorem executeFromSync_all_quota (cfg : RetryConfig) (provider : Provider)
    (payload : Nat) (outcomes : Nat → Outcome) (jitters : Nat → Rat)
    (times : Nat → Rat) (m : Nat → String)
    (hout : ∀ k, outcomes k = Outcome.failure (m k))
    (hquota : ∀ k, classifyMessage (m k) = (true, "quota_exceeded")) :
    ∀ remaining attempt last_error st inv enq,
      attempt + remaining = cfg.max_retries + 1 → 0 < remaining →
      (executeFromSync cfg provider payload outcomes jitters times
          remaining attempt last_error st inv enq).enqueueAttempts
        = enq + (remaining - 1) := by
  intro remaining
  induction remaining with
  | zero => intro attempt last_error st inv enq hsum hpos; omega
  | succ r ih =>
    intro attempt last_error st inv enq hsum hpos
    by_cases hfin : cfg.max_retries ≤ attempt
    · have hr : r = 0 := by omega
      subst hr
      have hc : _should_retry cfg (m attempt) attempt
          = (false, "max_retries_exceeded") := by
        rw [_should_retry, if_pos hfin]
      simp [executeFromSync, hout attempt, hc]
    · have hc : _should_retry cfg (m attempt) attempt = (true, "quota_exceeded") := by
        rw [_should_retry, if_neg hfin]; exact hquota attempt
      have hrpos : 0 < r := by omega
      have hrec := fun st1 => ih (attempt + 1) (some (m attempt)) st1 (inv + 1) (enq + 1)
        (by omega) hrpos
      simp only [executeFromSync, hout attempt, hc, Bool.true_eq_false, if_false]
      rw [if_pos trivial]
      rw [hrec _]
      omega

/-- C3: an invocation that raises a retryable-classified error on every call
is invoked exactly `max_retries + 1` times by both entry points, which then
raise the final attempt's error unchanged (the model carries the error
message; the source re-raises the very exception object of the last
attempt, rate_limiter.py lines 311/378). -/
theorem C3_retry_exhaustion (cfg : RetryConfig) (provider : Provider)
    (payload : Nat) (outcomes : Nat → Outcome) (jitters : Nat → Rat)
    (times : Nat → Rat) (st : GovState) (m : Nat → String)
    (hout : ∀ k, outcomes k = Outcome.failure (m k))
    (hretry : ∀ k, (classifyMessage (m k)).1 = true) :
    (execute_with_retry_sync cfg provider payload outcomes jitters times st).invocations
        = cfg.max_retries + 1 ∧
    (execute_with_retry_sync cfg provider payload outcomes jitters times st).result
        = ExecResult.err (m cfg.max_retries) ∧
    (execute_with_retry cfg provider payload outcomes jitters times st).invocations
        = cfg.max_retries + 1 ∧
    (execute_with_retry cfg provider payload outcomes jitters times st).result
        = ExecResult.err (m cfg.max_retries) := by
  have h := executeFromSync_all_retryable cfg provider payload outcomes jitters times m
    hout hretry (cfg.max_retries + 1) 0 none st 0 0 (by omega) (by omega)
  have heq : execute_with_retry cfg provider payload outcomes jitters times st
      = execute_with_retry_sync cfg provider payload outcomes jitters times st := by
    rw [execute_with_retry, execute_with_retry_sync]
    exact executeFrom_async_eq_sync cfg provider payload outcomes jitters times _ _ _ _ _ _
  refine ⟨?_, ?_, ?_, ?_⟩
  · rw [execute_with_retry_sync, h.2]; omega
  · rw [execute_with_retry_sync]; exact h.1
  · rw [heq, execute_with_retry_sync, h.2]; omega
  · rw [heq, execute_with_retry_sync]; exact h.1

/-- C3 witness: `max_retries = 2`, every call raises `"boom"` (generic,
retryable): 3 invocations, `"boom"` raised. -/
theorem C3_retry_exhaustion_witness :
    (execute_with_retry_sync cfgSmall Provider.openai 7
        (fun _ => Outcome.failure "boom") (fun _ => 0) (fun _ => 0) {}).invocations
      = cfgSmall.max_retries + 1 ∧
    (execute_with_retry_sync cfgSmall Provider.openai 7
        (fun _ => Outcome.failure "boom") (fun _ => 0) (fun _ => 0) {}).result
      = ExecResult.err "boom" :=
  ⟨(C3_retry_exhaustion cfgSmall Provider.openai 7 (fun _ => Outcome.failure "boom")
      (fun _ => 0) (fun _ => 0) {} (fun _ => "boom") (fun _ => rfl)
      (fun _ => show (classifyMessage "boom").1 = true by decide)).1,
   (C3_retry_exhaustion cfgSmall Provider.openai 7 (fun _ => Outcome.failure "boom")
      (fun _ => 0) (fun _ => 0) {} (fun _ => "boom") (fun _ => rfl)
      (fun _ => show (classifyMessage "boom").1 = true by decide)).2.1⟩

/-- C2 counterexample: with `max_retries = 0` the single (hence final)
attempt fails with the quota-classified message `"quota exceeded"`, yet zero
enqueue attempts are made — the final attempt is reclassified
`max_retries_exceeded` and raises before the queuing code (contradicting
"exactly one enqueue attempt ... including the final attempt").  With
`max_retries = 2` and every attempt failing the same way, three failures
yield only two enqueue attempts. -/
theorem C2_counterexample :
    classifyMessage "quota exceeded" = (true, "quota_exceeded") ∧
    (execute_with_retry_sync cfgZeroRetries Provider.openai 7
        (fun _ => Outcome.failure "quota exceeded") (fun _ => 0) (fun _ => 0) {}).enqueueAttempts
      = 0 ∧
    (execute_with_retry_sync cfgZeroRetries Provider.openai 7
        (fun _ => Outcome.failure "quota exceeded") (fun _ => 0) (fun _ => 0) {}).result
      = ExecResult.err "quota exceeded" ∧
    (execute_with_retry_sync cfgSmall Provider.openai 7
        (fun _ => Outcome.failure "quota exceeded") (fun _ => 0) (fun _ => 0) {}).invocations
      = 3 ∧
    (execute_with_retry_sync cfgSmall Provider.openai 7
        (fun _ => Outcome.failure "quota exceeded") (fun _ => 0) (fun _ => 0) {}).enqueueAttempts
      = 2 :=
  ⟨by decide, by decide, by decide, by decide, by decide⟩

/-- C2 (amended): a quota-classified failure triggers exactly one enqueue
attempt when it occurs at an attempt `< max_retries`; on the final attempt
(`attempt = max_retries`) no enqueue occurs because the classification is
forced to `max_retries_exceeded` and the error is raised at once.  Hence an
invocation failing quota-classified on every call makes exactly
`max_retries` enqueue attempts (one per non-final failure) in both entry
points, and raises the final error. -/
theorem C2_quota_enqueue_nonfinal (cfg : RetryConfig) (provider : Provider)
    (payload : Nat) (outcomes : Nat → Outcome) (jitters : Nat → Rat)
    (times : Nat → Rat) (st : GovState) (m : Nat → String)
    (hout : ∀ k, outcomes k = Outcome.failure (m k))
    (hquota : ∀ k, classifyMessage (m k) = (true, "quota_exceeded")) :
    (execute_with_retry_sync cfg provider payload outcomes jitters times st).enqueueAttempts
        = cfg.max_retries ∧
    (execute_with_retry_sync cfg provider payload outcomes jitters times st).result
        = ExecResult.err (m cfg.max_retries) ∧
    (execute_with_retry cfg provider payload outcomes jitters times st).enqueueAttempts
        = cfg.max_retries := by
  have henq := executeFromSync_all_quota cfg provider payload outcomes jitters times m
    hout hquota (cfg.max_retries + 1) 0 none st 0 0 (by omega) (by omega)
  have hres := executeFromSync_all_retryable cfg provider payload outcomes jitters times m
    hout (fun k => by rw [hquota k]) (cfg.max_retries + 1) 0 none st 0 0
    (by omega) (by omega)
  have heq : execute_with_retry cfg provider payload outcomes jitters times st
      = execute_with_retry_sync cfg provider payload outcomes jitters times st := by
    rw [execute_with_retry, execute_with_retry_sync]
    exact executeFrom_async_eq_sync cfg provider payload outcomes jitters times _ _ _ _ _ _
  refine ⟨?_, ?_, ?_⟩
  · rw [execute_with_retry_sync, henq]; omega
  · rw [execute_with_retry_sync]; exact hres.1
  · rw [heq, execute_with_retry_sync, henq]; omega

/-- C2 witness: the amended count at `max_retries = 2` with every call
failing `"quota exceeded"`: exactly 2 enqueue attempts. -/
theorem C2_quota_enqueue_nonfinal_witness :
    (execute_with_retry_sync cfgSmall Provider.openai 7
        (fun _ => Outcome.failure "quota exceeded") (fun _ => 0) (fun _ => 0) {}).enqueueAttempts
      = cfgSmall.max_retries :=
  (C2_quota_enqueue_nonfinal cfgSmall Provider.openai 7
    (fun _ => Outcome.failure "quota exceeded") (fun _ => 0) (fun _ => 0) {}
    (fun _ => "quota exceeded") (fun _ => rfl)
    (fun _ => show classifyMessage "quota exceeded" = (true, "quota_exceeded") by decide)).1

/-- C4: the blocking and the suspension-based entry points are extensionally
equal: same policy, provider, invocation behaviour, jitter draws and clock
give byte-for-byte the same trace — result/error, final state (backoff,
snapshot, history, queue) and the attempt/enqueue counts.  The two loop
bodies are transcribed separately from their respective sources, which
differ only in the flavour of the inter-attempt sleep. -/
theorem C4_sync_async_identical (cfg : RetryConfig) (provider : Provider)
    (payload : Nat) (outcomes : Nat → Outcome) (jitters : Nat → Rat)
    (times : Nat → Rat) (st : GovState) :
    execute_with_retry cfg provider payload outcomes jitters times st
      = execute_with_retry_sync cfg provider payload outcomes jitters times st := by
  rw [execute_with_retry, execute_with_retry_sync]
  exact executeFrom_async_eq_sync cfg provider payload outcomes jitters times _ _ _ _ _ _

/-- C7: a first-call failure classified `client_error` (with retries still
available, `max_retries ≥ 1`) is invoked exactly once, raises that error
immediately, and leaves `backoff_until` and the deferred queue exactly as
they were (only the request history gains the attempt timestamp), in both
entry points. -/
theorem C7_client_error_short_circuit (cfg : RetryConfig) (provider : Provider)
    (payload : Nat) (outcomes : Nat → Outcome) (jitters : Nat → Rat)
    (times : Nat → Rat) (st : GovState) (msg : String)
    (hmax : 1 ≤ cfg.max_retries)
    (hout : outcomes 0 = Outcome.failure msg)
    (hclass : classifyMessage msg = (false, "client_error")) :
    (execute_with_retry_sync cfg provider payload outcomes jitters times st).invocations
        = 1 ∧
    (execute_with_retry_sync cfg provider payload outcomes jitters times st).result
        = ExecResult.err msg ∧
    (execute_with_retry_sync cfg provider payload outcomes jitters times st).state.backoff_until
        = st.backoff_until ∧
    (execute_with_retry_sync cfg provider payload outcomes jitters times st).state.request_queue
        = st.request_queue ∧
    (execute_with_retry cfg provider payload outcomes jitters times st).invocations
        = 1 ∧
    (execute_with_retry cfg provider payload outcomes jitters times st).result
        = ExecResult.err msg ∧
    (execute_with_retry cfg provider payload outcomes jitters times st).state.backoff_until
        = st.backoff_until ∧
    (execute_with_retry cfg provider payload outcomes jitters times st).state.request_queue
        = st.request_queue := by
  have hc : _should_retry cfg msg 0 = (false, "client_error") := by
    rw [_should_retry, if_neg (by omega)]; exact hclass
  have heq : execute_with_retry cfg provider payload outcomes jitters times st
      = execute_with_retry_sync cfg provider payload outcomes jitters times st := by
    rw [execute_with_retry, execute_with_retry_sync]
    exact executeFrom_async_eq_sync cfg provider payload outcomes jitters times _ _ _ _ _ _
  rw [heq]
  have hmain :
      (execute_with_retry_sync cfg provider payload outcomes jitters times st).invocations
          = 1 ∧
      (execute_with_retry_sync cfg provider payload outcomes jitters times st).result
          = ExecResult.err msg ∧
      (execute_with_retry_sync cfg provider payload outcomes jitters times st).state.backoff_until
          = st.backoff_until ∧
      (execute_with_retry_sync cfg provider payload outcomes jitters times st).state.request_queue
          = st.request_queue := by
    refine ⟨?_, ?_, ?_, ?_⟩ <;>
      simp [execute_with_retry_sync, executeFromSync, hout, hc, recordAttempt]
  exact ⟨hmain.1, hmain.2.1, hmain.2.2.1, hmain.2.2.2, hmain.1, hmain.2.1,
    hmain.2.2.1, hmain.2.2.2⟩

/-- C7 witness: `max_retries = 2`, first call raises `"Invalid API key 401"`:
one invocation, immediate raise, backoff and queue untouched. -/
theorem C7_client_error_short_circuit_witness :
    1 ≤ cfgSmall.max_retries ∧
    (execute_with_retry_sync cfgSmall Provider.openai 7
        (fun _ => Outcome.failure "Invalid API key 401") (fun _ => 0) (fun _ => 0)
        {}).invocations = 1 ∧
    (execute_with_retry_sync cfgSmall Provider.openai 7
        (fun _ => Outcome.failure "Invalid API key 401") (fun _ => 0) (fun _ => 0)
        {}).result = ExecResult.err "Invalid API key 401" :=
  ⟨by decide,
   (C7_client_error_short_circuit cfgSmall Provider.openai 7
      (fun _ => Outcome.failure "Invalid API key 401") (fun _ => 0) (fun _ => 0) {}
      "Invalid API key 401" (by decide) rfl (by decide)).1,
   (C7_client_error_short_circuit cfgSmall Provider.openai 7
      (fun _ => Outcome.failure "Invalid API key 401") (fun _ => 0) (fun _ => 0) {}
      "Invalid API key 401" (by decide) rfl (by decide)).2.1⟩

/-- C10: a successful invocation always makes `execute` return that very
response — the snapshot refresh can never fail the call.  Whatever attempt
the loop has reached, a success at that attempt yields `ok resp` in both
loops and both entry points, for arbitrary header content; a response with
no headers mapping parses to the all-unknown snapshot; non-numeric header
values become unknown (`none`) fields instead of raising, and absent values
stay unknown.  (The source wraps the snapshot update in `try/except` at
lines 233-251; in the model every parsing function is total.) -/
theorem C10_success_returns_result :
    (∀ (cfg : RetryConfig) (provider : Provider) (payload : Nat)
        (outcomes : Nat → Outcome) (jitters times : Nat → Rat)
        (remaining attempt : Nat) (last_error : Option String) (st : GovState)
        (inv enq : Nat) (resp : Response),
      outcomes attempt = Outcome.success resp →
      (executeFromSync cfg provider payload outcomes jitters times (remaining + 1)
          attempt last_error st inv enq).result = ExecResult.ok resp ∧
      (executeFromAsync cfg provider payload outcomes jitters times (remaining + 1)
          attempt last_error st inv enq).result = ExecResult.ok resp) ∧
    (∀ (cfg : RetryConfig) (provider : Provider) (payload : Nat)
        (outcomes : Nat → Outcome) (jitters times : Nat → Rat) (st : GovState)
        (resp : Response),
      outcomes 0 = Outcome.success resp →
      (execute_with_retry cfg provider payload outcomes jitters times st).result
          = ExecResult.ok resp ∧
      (execute_with_retry_sync cfg provider payload outcomes jitters times st).result
          = ExecResult.ok resp) ∧
    (∀ r : Response, r.headers = none →
      _parse_openai_rate_limit_headers r = {} ∧
      _parse_anthropic_rate_limit_headers r = {}) ∧
    _safe_int (some "not-a-number") = none ∧
    _safe_float (some "not-a-number") = none ∧
    _safe_int none = none ∧
    _safe_float none = none := by
  refine ⟨?_, ?_, ?_, by decide, by decide, rfl, rfl⟩
  · intro cfg provider payload outcomes jitters times remaining attempt last_error
      st inv enq resp hsucc
    constructor <;> simp [executeFromSync, executeFromAsync, hsucc]
  · intro cfg provider payload outcomes jitters times st resp hsucc
    constructor <;>
      simp [execute_with_retry, execute_with_retry_sync, executeFromSync,
        executeFromAsync, hsucc]
  · intro r h
    constructor <;>
      simp [_parse_openai_rate_limit_headers, _parse_anthropic_rate_limit_headers,
        responseHeaders, h, _safe_int, _safe_float]

/-- A response whose headers hold one non-numeric and one numeric value. -/
def respJunkHeaders : Response :=
  { headers := some [("x-ratelimit-limit-requests", "not-a-number"),
      ("x-ratelimit-remaining-requests", "4500")],
    body := "payload" }

/-- A response without a headers mapping. -/
def respNoHeaders : Response := { body := "bare" }

/-- C10 witness: a first-call success carrying junk headers is returned
unchanged by `execute`, and the headerless response parses to the
all-unknown snapshot. -/
theorem C10_success_returns_result_witness :
    (fun _ => Outcome.success respJunkHeaders) 0 = Outcome.success respJunkHeaders ∧
    (execute_with_retry cfgSmall Provider.openai 7
        (fun _ => Outcome.success respJunkHeaders) (fun _ => 0) (fun _ => 0) {}).result
      = ExecResult.ok respJunkHeaders ∧
    respNoHeaders.headers = none ∧
    _parse_openai_rate_limit_headers respNoHeaders = {} :=
  ⟨rfl,
   (C10_success_returns_result.2.1 cfgSmall Provider.openai 7
      (fun _ => Outcome.success respJunkHeaders) (fun _ => 0) (fun _ => 0) {}
      respJunkHeaders rfl).1,
   rfl,
   (C10_success_returns_result.2.2.1 respNoHeaders rfl).1⟩

/-- C9 counterexample: with two queued items, `max_items = 1`, the first
re-invocation failing non-retryably (`"invalid request 400"`, dropped) and
the second succeeding, the sweep pops BOTH items — 2 > `max_items` = 1 —
because the loop guard counts only successful re-invocations.  It returns a
processed-count of 1 and the emptied queue. -/
theorem C9_counterexample :
    process_queued_requests cfgSmall
        { request_queue := { queue := [rqA, rqB] } } 0
        (fun k => if k = 0 then some "invalid request 400" else none) 1 10
      = some (1, 2, { request_queue := { queue := [], max_size := 1000 } }) ∧
    (1 : Nat) < 2 :=
  ⟨by decide, by decide⟩

/-- C9 (amended): `drain_queue` returns 0 and pops nothing while
`BackoffState > now`; otherwise its loop runs until either `max_items`
successful re-invocations have been counted or the queue is exhausted —
possibly popping more than `max_items` items, since failures are not
counted; the returned count never exceeds `max_items`; each popped item that
fails is re-enqueued (at the tail, with a fresh `queued_at`) exactly when
its error is retryable-classified at attempt 0 and is dropped otherwise; and
the sweep never raises (the model is a total function; the source catches
every exception at line 449). -/
theorem C9_drain_queue_behaviour :
    (∀ (cfg : RetryConfig) (st : GovState) (now : Rat)
        (sweepOutcomes : Nat → Option String) (max_requests fuel : Nat),
      now < st.backoff_until →
      process_queued_requests cfg st now sweepOutcomes max_requests fuel
        = some (0, 0, st)) ∧
    (∀ (cfg : RetryConfig) (sweepOutcomes : Nat → Option String) (now : Rat)
        (max_requests fuel processed pops : Nat) (q : RequestQueue)
        (p k : Nat) (q1 : RequestQueue),
      processLoop cfg sweepOutcomes now max_requests fuel processed pops q
          = some (p, k, q1) →
      processed ≤ max_requests → p ≤ max_requests) ∧
    (∀ (cfg : RetryConfig) (sweepOutcomes : Nat → Option String) (now : Rat)
        (max_requests fuel processed pops : Nat) (rd : QueuedRequest)
        (rest : List QueuedRequest) (M : Nat),
      processed < max_requests → sweepOutcomes pops = none →
      processLoop cfg sweepOutcomes now max_requests (fuel + 1) processed pops
          ⟨rd :: rest, M⟩
        = processLoop cfg sweepOutcomes now max_requests fuel (processed + 1)
            (pops + 1) ⟨rest, M⟩) ∧
    (∀ (cfg : RetryConfig) (sweepOutcomes : Nat → Option String) (now : Rat)
        (max_requests fuel processed pops : Nat) (rd : QueuedRequest)
        (rest : List QueuedRequest) (M : Nat) (e : String),
      processed < max_requests → sweepOutcomes pops = some e →
      processLoop cfg sweepOutcomes now max_requests (fuel + 1) processed pops
          ⟨rd :: rest, M⟩
        = processLoop cfg sweepOutcomes now max_requests fuel processed (pops + 1)
            (if (_should_retry cfg e 0).1
             then ((⟨rest, M⟩ : RequestQueue).add_request rd now).2
             else (⟨rest, M⟩ : RequestQueue))) := by
  refine ⟨?_, ?_, ?_, ?_⟩
  · intro cfg st now sweepOutcomes max_requests fuel h
    rw [process_queued_requests, if_pos h]
  · intro cfg sweepOutcomes now max_requests fuel
    induction fuel with
    | zero =>
      intro processed pops q p k q1 h hle
      simp [processLoop] at h
    | succ f ih =>
      intro processed pops q p k q1 h hle
      rw [processLoop] at h
      by_cases hcond : processed < max_requests ∧ 0 < q.size
      · rw [if_pos hcond] at h
        obtain ⟨l, M⟩ := q
        cases l with
        | nil => simp [RequestQueue.size] at hcond
        | cons rd rest =>
          simp only [RequestQueue.get_next_request] at h
          cases hso : sweepOutcomes pops with
          | none =>
            rw [hso] at h
            exact ih (processed + 1) (pops + 1) _ p k q1 h (by omega)
          | some e =>
            rw [hso] at h
            exact ih processed (pops + 1) _ p k q1 h hle
      · rw [if_neg hcond] at h
        injection h with h
        injection h with h1 h2
        omega
  · intro cfg sweepOutcomes now max_requests fuel processed pops rd rest M hlt hso
    rw [processLoop,
      if_pos ⟨hlt, by simp [RequestQueue.size]⟩]
    simp only [RequestQueue.get_next_request, hso]
  · intro cfg sweepOutcomes now max_requests fuel processed pops rd rest M e hlt hso
    rw [processLoop,
      if_pos ⟨hlt, by simp [RequestQueue.size]⟩]
    simp only [RequestQueue.get_next_request, hso]

/-- The governor state used in the backoff-gate witness: still backing off
until t = 10. -/
def stBackingOff : GovState :=
  { backoff_until := 10, request_queue := { queue := [rqA] } }

/-- C9 witness: the amended behaviour at concrete inputs — sweep at t = 0
against a backoff until t = 10 is a no-op; a concrete terminated loop run
respects the processed-count bound; a success step and a non-retryable
failure step rewrite as stated. -/
theorem C9_drain_queue_behaviour_witness :
    ((0 : Rat) < stBackingOff.backoff_until ∧
      process_queued_requests cfgSmall stBackingOff 0 (fun _ => none) 5 9
        = some (0, 0, stBackingOff)) ∧
    (processLoop cfgSmall (fun k => if k = 0 then some "invalid request 400" else none)
        0 1 10 0 0 { queue := [rqA, rqB] }
      = some (1, 2, { queue := [], max_size := 1000 }) ∧ (0 : Nat) ≤ 1 ∧ (1 : Nat) ≤ 1) ∧
    ((0 : Nat) < 1 ∧ (fun _ => (none : Option String)) 0 = none ∧
      processLoop cfgSmall (fun _ => none) 0 1 3 0 0 ⟨[rqA], 1000⟩
        = processLoop cfgSmall (fun _ => none) 0 1 2 1 1 ⟨[], 1000⟩) :=
  ⟨⟨by decide,
    (C9_drain_queue_behaviour.1 cfgSmall stBackingOff 0 (fun _ => none) 5 9 (by decide))⟩,
   ⟨by decide, by decide,
    (C9_drain_queue_behaviour.2.1 cfgSmall
      (fun k => if k = 0 then some "invalid request 400" else none) 0 1 10 0 0
      { queue := [rqA, rqB] } 1 2 { queue := [], max_size := 1000 } (by decide)
      (by decide))⟩,
   ⟨by decide, rfl,
    (C9_drain_queue_behaviour.2.2.1 cfgSmall (fun _ => none) 0 1 2 0 0 rqA [] 1000
      (by decide) rfl)⟩⟩

end MeetingAgent
